import Mathlib

/-!
Shallow embedding of the GrafanaDashboard controller
(`pkg/controller/grafanadashboard/dashboard_controller.go`) and the
collaborators it uses at its interface boundary.  Pure Go functions become
Lean functions; the side effects of a reconciliation pass (external-service
calls, registry mutations, emitted events) are made explicit by threading a
`PassSt` record through the loops and recording a trace of calls.
-/

set_option autoImplicit false

namespace GrafanaOp

/-- A set of Kubernetes labels, as an association list of key/value pairs. -/
abbrev Labels := List (String × String)

/-- Operators of a `metav1.LabelSelector` match expression; `opBad` stands for
an operator string the apimachinery library rejects when building selector
requirements. -/
inductive SelOperator where
  | opIn
  | opNotIn
  | opExists
  | opDoesNotExist
  | opBad (s : String)
deriving DecidableEq

/-- One `matchExpressions` entry of a `metav1.LabelSelector`. -/
structure MatchExpr where
  key : String
  operator : SelOperator
  values : List String
deriving DecidableEq

/-- A `metav1.LabelSelector`: conjunction of `matchLabels` equalities and
`matchExpressions` requirements. -/
structure LabelSelector where
  matchLabels : List (String × String)
  matchExpressions : List MatchExpr
deriving DecidableEq

/-- Whether a match expression uses an operator the library accepts. -/
def MatchExpr.validOp (e : MatchExpr) : Bool :=
  match e.operator with
  | .opBad _ => false
  | _ => true

/-- Value of a label key in a label set (first occurrence). -/
def lookupLabel (L : Labels) (k : String) : Option String :=
  (L.find? (fun kv => kv.1 == k)).map (fun kv => kv.2)

/-- Evaluation of one selector requirement against a label set, following
`k8s.io/apimachinery/pkg/labels.Requirement.Matches`. -/
def MatchExpr.eval (e : MatchExpr) (L : Labels) : Bool :=
  match e.operator with
  | .opIn =>
    match lookupLabel L e.key with
    | some v => e.values.contains v
    | none => false
  | .opNotIn =>
    match lookupLabel L e.key with
    | some v => !(e.values.contains v)
    | none => true
  | .opExists => (lookupLabel L e.key).isSome
  | .opDoesNotExist => (lookupLabel L e.key).isNone
  | .opBad _ => false

/-- A selector has no requirements at all (the k8s "empty selector"). -/
def LabelSelector.isEmptySel (s : LabelSelector) : Bool :=
  s.matchLabels.isEmpty && s.matchExpressions.isEmpty

/-- All operators of the selector are accepted by the library. -/
def LabelSelector.validSel (s : LabelSelector) : Bool :=
  s.matchExpressions.all (fun e => e.validOp)

/-- Result of `metav1.LabelSelectorAsSelector`: the nothing selector (for a
nil input), the everything selector (for an empty input), or the conjunction
of the requirements. -/
inductive KSelector where
  | nothing
  | everything
  | reqs (s : LabelSelector)
deriving DecidableEq

/-- `labels.Selector.Empty`. -/
def KSelector.empty : KSelector → Bool
  | .everything => true
  | _ => false

/-- `labels.Selector.Matches` against a label set. -/
def KSelector.matchesL : KSelector → Labels → Bool
  | .nothing, _ => false
  | .everything, _ => true
  | .reqs s, L =>
    s.matchLabels.all (fun kv => lookupLabel L kv.1 == some kv.2) &&
      s.matchExpressions.all (fun e => e.eval L)

/-- `metav1.LabelSelectorAsSelector`: nil gives the nothing selector, an
empty selector gives everything, an invalid operator is an error, otherwise
the requirements are returned. -/
def labelSelectorAsSelector : Option LabelSelector → Except String KSelector
  | none => .ok .nothing
  | some s =>
    if s.isEmptySel then .ok .everything
    else if s.validSel then .ok (.reqs s)
    else .error "invalid label selector operator"

/-- A GrafanaDashboard custom resource as seen by the controller: identity,
labels, raw content, declared plugins, and the UID used on the remote side. -/
structure Dashboard where
  name : String
  nspace : String
  labels : Labels
  content : String
  plugins : List String
  uid : String
deriving DecidableEq

/-- A `GrafanaDashboardRef` registry entry: identity, last-applied content
hash and remote UID. -/
structure DashboardRef where
  name : String
  nspace : String
  hash : String
  uid : String
deriving DecidableEq

/-- Modelled from the spec: the ContentHasher collaborator computes a stable,
deterministic fingerprint of a dashboard's rendered content (the hashing code
is not part of the controller file under verification). -/
def hashContent (content : String) : String :=
  "h:" ++ content

/-- Registry entry built by `AddDashboard` for a successfully applied
dashboard: current content hash and remote UID. -/
def mkRef (d : Dashboard) : DashboardRef :=
  { name := d.name, nspace := d.nspace, hash := hashContent d.content, uid := d.uid }

/-- Modelled from the spec: the `ControllerConfig` registry (package
`pkg/controller/config` is not in the sources) — the in-memory catalog of
previously applied dashboards, their plugin metadata, and config items. -/
structure ControllerConfig where
  dashboards : List DashboardRef
  plugins : List ((String × String) × List String)
  configItems : List (String × Bool)
deriving DecidableEq

/-- Modelled from the spec: `GetDashboards(namespace)` returns the registry
entries of the given namespace. -/
def ControllerConfig.getDashboards (cfg : ControllerConfig) (ns : String) : List DashboardRef :=
  cfg.dashboards.filter (fun r => r.nspace == ns)

/-- Modelled from the spec: `AddDashboard` puts an entry keyed by
(namespace, name); idempotent — an existing entry for the key is replaced,
otherwise the new entry is appended. -/
def ControllerConfig.addDashboard (cfg : ControllerConfig) (d : Dashboard) : ControllerConfig :=
  if cfg.dashboards.any (fun r => r.nspace == d.nspace && r.name == d.name) then
    { cfg with dashboards :=
        cfg.dashboards.map (fun r =>
          if r.nspace == d.nspace && r.name == d.name then mkRef d else r) }
  else
    { cfg with dashboards := cfg.dashboards ++ [mkRef d] }

/-- Modelled from the spec: `RemoveDashboard` removes the entry keyed by
(namespace, name). -/
def ControllerConfig.removeDashboard (cfg : ControllerConfig) (ns name : String) : ControllerConfig :=
  { cfg with dashboards :=
      cfg.dashboards.filter (fun r => !(r.nspace == ns && r.name == name)) }

/-- Modelled from the spec: `SetPluginsFor` refreshes the plugin list
associated with a dashboard, keyed by (namespace, name). -/
def ControllerConfig.setPluginsFor (cfg : ControllerConfig) (d : Dashboard) : ControllerConfig :=
  { cfg with plugins :=
      ((d.nspace, d.name), d.plugins) ::
        cfg.plugins.filter (fun p => !(p.1.1 == d.nspace && p.1.2 == d.name)) }

/-- Modelled from the spec: `RemovePluginsFor` drops the plugin metadata
keyed by (namespace, name). -/
def ControllerConfig.removePluginsFor (cfg : ControllerConfig) (ns name : String) : ControllerConfig :=
  { cfg with plugins :=
      cfg.plugins.filter (fun p => !(p.1.1 == ns && p.1.2 == name)) }

/-- Modelled from the spec: `AddConfigItem` sets a boolean config flag
(used for `ConfigGrafanaDashboardsSynced`). -/
def ControllerConfig.addConfigItem (cfg : ControllerConfig) (k : String) (v : Bool) : ControllerConfig :=
  { cfg with configItems := (k, v) :: cfg.configItems.filter (fun p => !(p.1 == k)) }

/-- Registry lookup of the entry for a (namespace, name) key. -/
def lookupRef (cfg : ControllerConfig) (ns name : String) : Option DashboardRef :=
  cfg.dashboards.find? (fun r => r.nspace == ns && r.name == name)

/-- Plugin-metadata lookup for a (namespace, name) key. -/
def lookupPlugins (cfg : ControllerConfig) (ns name : String) : Option (List String) :=
  (cfg.plugins.find? (fun p => p.1.1 == ns && p.1.2 == name)).map (fun p => p.2)

/-- The `common.ControllerState` snapshot consulted by the reconciler:
readiness flag, selectors and credentials. -/
structure ControllerState where
  grafanaReady : Bool
  dashboardSelectors : Option (List LabelSelector)
  dashboardNamespaceSelector : Option LabelSelector
  adminUrl : String
  adminUsername : String
  adminPassword : String
  clientTimeout : Nat

/-- The Kubernetes side seen through the split client: namespaces with their
labels, the dashboards present in the cluster, an injected failure for the
List call, and injected non-not-found failures for Get calls. -/
structure ClusterEnv where
  nspaces : List (String × Labels)
  dashboards : List Dashboard
  listFailure : Option String
  getFailures : List ((String × String) × String)

/-- `client.Get` on a Namespace object: its labels, or an error when the
namespace cannot be resolved. -/
def ClusterEnv.getNamespace (env : ClusterEnv) (name : String) : Except String Labels :=
  match env.nspaces.find? (fun p => p.1 == name) with
  | some p => .ok p.2
  | none => .error "namespace not found"

/-- `client.List` restricted to one namespace. -/
def ClusterEnv.listDashboards (env : ClusterEnv) (ns : String) : Except String (List Dashboard) :=
  match env.listFailure with
  | some e => .error e
  | none => .ok (env.dashboards.filter (fun d => d.nspace == ns))

/-- Outcome of `client.Get` on a GrafanaDashboard. -/
inductive GetErr where
  | notFound
  | other (e : String)
deriving DecidableEq

/-- `client.Get` on a GrafanaDashboard: injected failure, found instance, or
not-found. -/
def ClusterEnv.getDashboard (env : ClusterEnv) (ns name : String) : Except GetErr Dashboard :=
  match env.getFailures.find? (fun p => p.1.1 == ns && p.1.2 == name) with
  | some p => .error (.other p.2)
  | none =>
    match env.dashboards.find? (fun d => d.nspace == ns && d.name == name) with
    | some d => .ok d
    | none => .error .notFound

/-- A Grafana folder as returned by the client; `id` is nil when the service
reports none. -/
structure Folder where
  id : Option Int
deriving DecidableEq

/-- A `GrafanaResponse`: its fields are pointers in Go, hence `Option` here;
dereferencing a `none` field is a nil-pointer panic. -/
structure GrafanaResponse where
  status : Option String
  message : Option String
deriving DecidableEq

/-- The Grafana API client at its interface boundary: folder lookup/creation,
dashboard create-or-update, and delete by UID (which in Go returns both a
response and an error). -/
structure GrafanaClient where
  getOrCreateNamespaceFolder : String → Except String Folder
  createOrUpdateDashboard : String → Int → Except String GrafanaResponse
  deleteDashboardByUID : String → GrafanaResponse × Option String

/-- Trace entry for one external-service call made during a pass. -/
inductive Call where
  | getOrCreateFolder (ns : String)
  | createOrUpdate (payload : String) (folderId : Int)
  | deleteByUID (uid : String)
deriving DecidableEq

/-- Outcome reported for one dashboard via the event recorder. -/
inductive Event where
  | success (ns name : String)
  | processingError (ns name : String) (issue : String)
deriving DecidableEq

/-- The mutable state threaded through a pass: the registry, the trace of
external calls, and the emitted events. -/
structure PassSt where
  cfg : ControllerConfig
  calls : List Call
  events : List Event
deriving DecidableEq

/-- The dashboard pipeline at its interface boundary: given a dashboard and
the known hash, it returns a rendered payload, or nil when the content is
unchanged, or an error. -/
abbrev Pipeline := Dashboard → String → Except String (Option String)

/-- Modelled from the spec: the rendering collaborator
(`dashboard_pipeline.go` is not in the sources) returns a nil payload exactly
when the stored fingerprint matches the current content, and the rendered
payload otherwise. -/
def renderPipeline : Pipeline := fun d knownHash =>
  if knownHash == hashContent d.content then .ok none else .ok (some d.content)

/-- The `MatchesSelectors` helper of the GrafanaDashboard type, one selector:
modelled from the spec — the apis package is not in the sources; a selector
is converted by the library and then evaluated against the dashboard labels,
conversion failure being surfaced as an error. -/
def matchesSelector (d : Dashboard) (s : LabelSelector) : Except String Bool :=
  match labelSelectorAsSelector (some s) with
  | .error e => .error e
  | .ok sel => .ok (sel.empty || sel.matchesL d.labels)

/-- Modelled from the spec: `GrafanaDashboard.MatchesSelectors` folds the
per-selector results with or, surfacing the first evaluation error. -/
def matchesSelectors (d : Dashboard) : List LabelSelector → Except String Bool
  | [] => .ok false
  | s :: rest =>
    match matchesSelector d s with
    | .error e => .error e
    | .ok b =>
      match matchesSelectors d rest with
      | .error e => .error e
      | .ok b2 => .ok (b || b2)

/-- `isMatch` from the source: nil selector set fails closed; an evaluation
error is logged and treated as no match. -/
def isMatch (state : ControllerState) (item : Dashboard) : Bool :=
  match state.dashboardSelectors with
  | none => false
  | some sels =>
    match matchesSelectors item sels with
    | .error _ => false
    | .ok m => m

/-- `checkNamespaceLabels` from the source: resolve the namespace object,
convert the configured namespace selector, and succeed with
`Empty or Matches`. -/
def checkNamespaceLabels (env : ClusterEnv) (state : ControllerState) (dashboard : Dashboard) :
    Except String Bool :=
  match env.getNamespace dashboard.nspace with
  | .error e => .error e
  | .ok nsLabels =>
    match labelSelectorAsSelector state.dashboardNamespaceSelector with
    | .error e => .error e
    | .ok selector => .ok (selector.empty || selector.matchesL nsLabels)

/-- The `findHash` closure from the source: hash of the first known entry
with the same name and namespace, empty string otherwise. -/
def findHash (known : List DashboardRef) (item : Dashboard) : String :=
  match known.find? (fun d => item.name == d.name && item.nspace == d.nspace) with
  | some d => d.hash
  | none => ""

/-- The `inNamespace` closure from the source: whether a registry entry has a
live counterpart in the namespace listing. -/
def inNamespace (items : List Dashboard) (ref : DashboardRef) : Bool :=
  items.any (fun d => d.name == ref.name && d.nspace == ref.nspace)

/-- The delete-set computation from the source: known entries no longer found
in the namespace listing. -/
def computeDeleteSet (known : List DashboardRef) (items : List Dashboard) : List DashboardRef :=
  known.filter (fun r => !(inNamespace items r))

/-- Folder id extraction from the source: default 0 when the service reports
none. -/
def folderIdOf (f : Folder) : Int :=
  match f.id with
  | none => 0
  | some i => i

/-- The submit tail of the per-dashboard loop body: folder lookup/creation
followed by create-or-update, with `manageError`/`manageSuccess` effects. -/
def submitStep (gc : GrafanaClient) (dashboard : Dashboard) (processed : String) (s : PassSt) :
    PassSt :=
  let s1 : PassSt := { s with calls := s.calls ++ [Call.getOrCreateFolder dashboard.nspace] }
  match gc.getOrCreateNamespaceFolder dashboard.nspace with
  | .error e =>
    { s1 with events := s1.events ++ [Event.processingError dashboard.nspace dashboard.name e] }
  | .ok folder =>
    let folderId := folderIdOf folder
    let s2 : PassSt := { s1 with calls := s1.calls ++ [Call.createOrUpdate processed folderId] }
    match gc.createOrUpdateDashboard processed folderId with
    | .error e =>
      { s2 with events := s2.events ++ [Event.processingError dashboard.nspace dashboard.name e] }
    | .ok _ =>
      { s2 with
        cfg := (s2.cfg.addDashboard dashboard).setPluginsFor dashboard,
        events := s2.events ++ [Event.success dashboard.nspace dashboard.name] }

/-- One iteration of the new/updated-dashboards loop from the source:
selector gate, pipeline, nil-payload shortcut, namespace-selector gate, then
submission. -/
def processStep (state : ControllerState) (env : ClusterEnv) (gc : GrafanaClient)
    (pipe : Pipeline) (known : List DashboardRef) (dashboard : Dashboard) (s : PassSt) : PassSt :=
  if !(isMatch state dashboard) then s
  else
    match pipe dashboard (findHash known dashboard) with
    | .error e =>
      { s with events := s.events ++ [Event.processingError dashboard.nspace dashboard.name e] }
    | .ok none => { s with cfg := s.cfg.setPluginsFor dashboard }
    | .ok (some processed) =>
      match state.dashboardNamespaceSelector with
      | some _ =>
        match checkNamespaceLabels env state dashboard with
        | .error e =>
          { s with events :=
              s.events ++ [Event.processingError dashboard.nspace dashboard.name e] }
        | .ok false => s
        | .ok true => submitStep gc dashboard processed s
      | none => submitStep gc dashboard processed s

/-- The new/updated-dashboards loop from the source. -/
def processLoop (state : ControllerState) (env : ClusterEnv) (gc : GrafanaClient)
    (pipe : Pipeline) (known : List DashboardRef) : List Dashboard → PassSt → PassSt
  | [], s => s
  | d :: rest, s =>
    processLoop state env gc pipe known rest (processStep state env gc pipe known d s)

/-- Whether the logging in the delete loop dereferences a nil pointer: the
error branch reads `status.Status` and `status.Message`, and the
unconditional info line reads `status.Message`. -/
def derefCrash (resp : GrafanaResponse) (err : Option String) : Bool :=
  (err.isSome && (resp.status.isNone || resp.message.isNone)) || resp.message.isNone

/-- Result of the delete loop: completed, or a nil-pointer panic. -/
inductive DeleteOut where
  | ok (s : PassSt)
  | panicked (s : PassSt)
deriving DecidableEq

/-- One iteration of the delete loop from the source: one delete call, the
log dereferences, then unconditional removal of plugin metadata and the
registry entry. -/
def deleteStep (gc : GrafanaClient) (d : DashboardRef) (s : PassSt) : DeleteOut :=
  let r := gc.deleteDashboardByUID d.uid
  let s1 : PassSt := { s with calls := s.calls ++ [Call.deleteByUID d.uid] }
  if derefCrash r.1 r.2 then .panicked s1
  else
    .ok { s1 with
      cfg := (s1.cfg.removePluginsFor d.nspace d.name).removeDashboard d.nspace d.name }

/-- The delete loop from the source, aborting on a panic. -/
def deleteLoop (gc : GrafanaClient) : List DashboardRef → PassSt → DeleteOut
  | [], s => .ok s
  | d :: rest, s =>
    match deleteStep gc d s with
    | .ok s1 => deleteLoop gc rest s1
    | .panicked s1 => .panicked s1

/-- Outcome of `reconcileDashboards`: completed pass, listing failure, or a
panic in the delete loop. -/
inductive PassResult where
  | ok (s : PassSt)
  | listErr (e : String) (s : PassSt)
  | panicked (s : PassSt)
deriving DecidableEq

/-- The completed-pass state, when there is one. -/
def PassResult.finalSt : PassResult → Option PassSt
  | .ok s => some s
  | .listErr _ _ => none
  | .panicked _ => none

/-- `reconcileDashboards` from the source: snapshot the known dashboards,
list the namespace, compute the delete set, run the process loop then the
delete loop, and mark the namespace synced. -/
def reconcileDashboards (state : ControllerState) (cfg : ControllerConfig) (gc : GrafanaClient)
    (pipe : Pipeline) (env : ClusterEnv) (ns : String) : PassResult :=
  let known := cfg.getDashboards ns
  let s0 : PassSt := { cfg := cfg, calls := [], events := [] }
  match env.listDashboards ns with
  | .error e => .listErr e s0
  | .ok items =>
    let toDelete := computeDeleteSet known items
    let s1 := processLoop state env gc pipe known items s0
    match deleteLoop gc toDelete s1 with
    | .ok s2 => .ok { s2 with cfg := s2.cfg.addConfigItem "GrafanaDashboardsSynced" true }
    | .panicked s2 => .panicked s2

/-- A reconciliation request: namespace plus name, empty name meaning a full
namespace resync. -/
structure Request where
  nspace : String
  name : String
deriving DecidableEq

/-- A `reconcile.Result`: requeue flag and requeue-after delay. -/
structure ReconcileResult where
  requeue : Bool
  requeueAfter : Nat
deriving DecidableEq

/-- `config.RequeueDelay`. -/
def requeueDelay : Nat := 10

/-- Full outcome of one `Reconcile` invocation: returned result and error,
final pass state, and whether the pass panicked. -/
structure ReconcileOut where
  result : ReconcileResult
  error : Option String
  st : PassSt
  panicked : Bool
deriving DecidableEq

/-- `getClient` from the source, reduced to its credential validation; the
constructed client itself is the `GrafanaClient` oracle. -/
def getClientCheck (state : ControllerState) : Except String Unit :=
  if state.adminUrl == "" then .error "cannot get grafana admin url"
  else if state.adminUsername == "" then .error "invalid credentials (username)"
  else if state.adminPassword == "" then .error "invalid credentials (password)"
  else .ok ()

/-- Package a pass result as a `Reconcile` return. -/
def finishPass (p : PassResult) : ReconcileOut :=
  match p with
  | .ok s => { result := { requeue := false, requeueAfter := 0 }, error := none, st := s, panicked := false }
  | .listErr e s => { result := { requeue := false, requeueAfter := 0 }, error := some e, st := s, panicked := false }
  | .panicked s => { result := { requeue := false, requeueAfter := 0 }, error := none, st := s, panicked := true }

/-- `Reconcile` from the source: readiness gate, client construction,
empty-name resync, selector-initialization gate, instance fetch, resource
selector gate, then the namespace pass. -/
def Reconcile (state : ControllerState) (cfg : ControllerConfig) (gc : GrafanaClient)
    (pipe : Pipeline) (env : ClusterEnv) (request : Request) : ReconcileOut :=
  let idle : PassSt := { cfg := cfg, calls := [], events := [] }
  if state.grafanaReady = false then
    { result := { requeue := false, requeueAfter := 0 }, error := none, st := idle, panicked := false }
  else
    match getClientCheck state with
    | .error _ =>
      { result := { requeue := false, requeueAfter := requeueDelay }, error := none, st := idle,
        panicked := false }
    | .ok _ =>
      if request.name == "" then
        finishPass (reconcileDashboards state cfg gc pipe env request.nspace)
      else if state.dashboardSelectors.isNone then
        { result := { requeue := false, requeueAfter := requeueDelay }, error := none, st := idle,
          panicked := false }
      else
        match env.getDashboard request.nspace request.name with
        | .error .notFound =>
          finishPass (reconcileDashboards state cfg gc pipe env request.nspace)
        | .error (.other e) =>
          { result := { requeue := false, requeueAfter := 0 }, error := some e, st := idle,
            panicked := false }
        | .ok inst =>
          if !(isMatch state inst) then
            { result := { requeue := false, requeueAfter := 0 }, error := none, st := idle,
              panicked := false }
          else
            finishPass (reconcileDashboards state cfg gc pipe env request.nspace)

/-- Effects of the submit tail of one iteration, as data: calls made, events
emitted, registry update. -/
def submitEffects (gc : GrafanaClient) (dashboard : Dashboard) (processed : String) :
    List Call × List Event × (ControllerConfig → ControllerConfig) :=
  match gc.getOrCreateNamespaceFolder dashboard.nspace with
  | .error e =>
    ([Call.getOrCreateFolder dashboard.nspace],
     [Event.processingError dashboard.nspace dashboard.name e], id)
  | .ok folder =>
    let folderId := folderIdOf folder
    match gc.createOrUpdateDashboard processed folderId with
    | .error e =>
      ([Call.getOrCreateFolder dashboard.nspace, Call.createOrUpdate processed folderId],
       [Event.processingError dashboard.nspace dashboard.name e], id)
    | .ok _ =>
      ([Call.getOrCreateFolder dashboard.nspace, Call.createOrUpdate processed folderId],
       [Event.success dashboard.nspace dashboard.name],
       fun c => (c.addDashboard dashboard).setPluginsFor dashboard)

/-- Effects of one process-loop iteration, as data. -/
def stepEffects (state : ControllerState) (env : ClusterEnv) (gc : GrafanaClient)
    (pipe : Pipeline) (known : List DashboardRef) (dashboard : Dashboard) :
    List Call × List Event × (ControllerConfig → ControllerConfig) :=
  if !(isMatch state dashboard) then ([], [], id)
  else
    match pipe dashboard (findHash known dashboard) with
    | .error e => ([], [Event.processingError dashboard.nspace dashboard.name e], id)
    | .ok none => ([], [], fun c => c.setPluginsFor dashboard)
    | .ok (some processed) =>
      match state.dashboardNamespaceSelector with
      | some _ =>
        match checkNamespaceLabels env state dashboard with
        | .error e => ([], [Event.processingError dashboard.nspace dashboard.name e], id)
        | .ok false => ([], [], id)
        | .ok true => submitEffects gc dashboard processed
      | none => submitEffects gc dashboard processed

/-- Registry after the process loop, as a fold of the per-item updates. -/
def passUpd (state : ControllerState) (env : ClusterEnv) (gc : GrafanaClient)
    (pipe : Pipeline) (known : List DashboardRef) (items : List Dashboard)
    (c : ControllerConfig) : ControllerConfig :=
  items.foldl (fun c d => (stepEffects state env gc pipe known d).2.2 c) c

/-- Calls of the process loop, one block per item. -/
def passCalls (state : ControllerState) (env : ClusterEnv) (gc : GrafanaClient)
    (pipe : Pipeline) (known : List DashboardRef) (items : List Dashboard) : List Call :=
  items.flatMap (fun d => (stepEffects state env gc pipe known d).1)

/-- Events of the process loop, one block per item. -/
def passEvents (state : ControllerState) (env : ClusterEnv) (gc : GrafanaClient)
    (pipe : Pipeline) (known : List DashboardRef) (items : List Dashboard) : List Event :=
  items.flatMap (fun d => (stepEffects state env gc pipe known d).2.1)

/-- Registry after the delete loop: plugin metadata and entry of each
delete-set member removed, in order. -/
def removeRefs (ds : List DashboardRef) (c : ControllerConfig) : ControllerConfig :=
  ds.foldl (fun c r => (c.removePluginsFor r.nspace r.name).removeDashboard r.nspace r.name) c

/-- A client whose delete responses always carry concrete status and message
values.  Modelled from the spec: the Grafana client implementation is not in
the sources; its interface `deleteByUID(uid) -> (status, error)` returns a
status result in every case. -/
def GrafanaClient.deleteWellFormed (gc : GrafanaClient) : Prop :=
  ∀ uid, ((gc.deleteDashboardByUID uid).1.status.isSome = true) ∧
    ((gc.deleteDashboardByUID uid).1.message.isSome = true)

/-- The state in which a pass with listing result `items` completes. -/
def passFinal (state : ControllerState) (cfg : ControllerConfig) (gc : GrafanaClient)
    (pipe : Pipeline) (env : ClusterEnv) (ns : String) (items : List Dashboard) : PassSt :=
  { cfg := ((removeRefs (computeDeleteSet (cfg.getDashboards ns) items)
        (passUpd state env gc pipe (cfg.getDashboards ns) items cfg)).addConfigItem
          "GrafanaDashboardsSynced" true),
    calls := passCalls state env gc pipe (cfg.getDashboards ns) items ++
      (computeDeleteSet (cfg.getDashboards ns) items).map (fun r => Call.deleteByUID r.uid),
    events := passEvents state env gc pipe (cfg.getDashboards ns) items }

/-- Pairwise-distinct (namespace, name) identities in a listing, as delivered
by the Kubernetes List call. -/
def keysNodup (items : List Dashboard) : Prop :=
  (items.map (fun d => (d.nspace, d.name))).Nodup

/-- Whether a traced call is a dashboard deletion. -/
def isDeleteCall : Call → Bool
  | .deleteByUID _ => true
  | _ => false

/-- The namespace-selector gate does not skip the dashboard: either no
namespace selector is configured, or the namespace labels check succeeds
positively. -/
def nsGatePasses (state : ControllerState) (env : ClusterEnv) (d : Dashboard) : Prop :=
  state.dashboardNamespaceSelector = none ∨ checkNamespaceLabels env state d = .ok true

/-- The apply path for an in-scope dashboard fails: the pipeline errors, or
the namespace-labels check errors, or (past the gate) the folder call or the
create-or-update call errors. -/
def applyFails (state : ControllerState) (env : ClusterEnv) (gc : GrafanaClient)
    (pipe : Pipeline) (known : List DashboardRef) (d : Dashboard) : Prop :=
  isMatch state d = true ∧
  ((∃ e, pipe d (findHash known d) = .error e) ∨
   (∃ p, pipe d (findHash known d) = .ok (some p) ∧
     ((state.dashboardNamespaceSelector ≠ none ∧
        ∃ e, checkNamespaceLabels env state d = .error e) ∨
      (nsGatePasses state env d ∧
        ((∃ e, gc.getOrCreateNamespaceFolder d.nspace = .error e) ∨
         (∃ fl, gc.getOrCreateNamespaceFolder d.nspace = .ok fl ∧
           ∃ e, gc.createOrUpdateDashboard p (folderIdOf fl) = .error e))))))

/-- The apply path for an in-scope dashboard succeeds end to end. -/
def applySucceeds (state : ControllerState) (env : ClusterEnv) (gc : GrafanaClient)
    (pipe : Pipeline) (known : List DashboardRef) (d : Dashboard) : Prop :=
  isMatch state d = true ∧
  ∃ p fl r, pipe d (findHash known d) = .ok (some p) ∧
    nsGatePasses state env d ∧
    gc.getOrCreateNamespaceFolder d.nspace = .ok fl ∧
    gc.createOrUpdateDashboard p (folderIdOf fl) = .ok r

/-- C1 counterexample helper data: a registry with one entry for namespace
ns1 whose dashboard is gone from the cluster, and a client whose delete call
fails (with a populated response). -/
def exCfgC1 : ControllerConfig :=
  { dashboards := [{ name := "a", nspace := "ns1", hash := "h:orig", uid := "u1" }],
    plugins := [(("ns1", "a"), ["piechart"])],
    configItems := [] }

def exStateC1 : ControllerState :=
  { grafanaReady := true, dashboardSelectors := some [],
    dashboardNamespaceSelector := none, adminUrl := "http://grafana", adminUsername := "admin",
    adminPassword := "secret", clientTimeout := 5 }

def exEnvC1 : ClusterEnv :=
  { nspaces := [("ns1", [])], dashboards := [], listFailure := none, getFailures := [] }

def exGcFailDelete : GrafanaClient :=
  { getOrCreateNamespaceFolder := fun _ => .ok { id := some 1 },
    createOrUpdateDashboard := fun _ _ => .ok { status := some "ok", message := some "ok" },
    deleteDashboardByUID := fun _ =>
      ({ status := some "500", message := some "backend error" }, some "delete failed") }

def exStateNotReady : ControllerState :=
  { grafanaReady := false, dashboardSelectors := some [],
    dashboardNamespaceSelector := none, adminUrl := "http://grafana", adminUsername := "admin",
    adminPassword := "secret", clientTimeout := 5 }

def exSelOk : LabelSelector := { matchLabels := [], matchExpressions := [] }

def exSel7 : LabelSelector := { matchLabels := [("team", "x")], matchExpressions := [] }

def exDash7 : Dashboard :=
  { name := "d7", nspace := "ns7", labels := [("team", "x")], content := "{}",
    plugins := [], uid := "u7" }

def exState7 : ControllerState :=
  { grafanaReady := true, dashboardSelectors := some [exSel7],
    dashboardNamespaceSelector := none, adminUrl := "http://grafana", adminUsername := "admin",
    adminPassword := "secret", clientTimeout := 5 }

def exSel8 : LabelSelector := { matchLabels := [("env", "prod")], matchExpressions := [] }

def exState8 : ControllerState :=
  { grafanaReady := true, dashboardSelectors := some [],
    dashboardNamespaceSelector := some exSel8, adminUrl := "http://grafana",
    adminUsername := "admin", adminPassword := "secret", clientTimeout := 5 }

def exEnv8 : ClusterEnv :=
  { nspaces := [("prod", [("env", "prod")])], dashboards := [], listFailure := none,
    getFailures := [] }

def exDash8 : Dashboard :=
  { name := "d8", nspace := "prod", labels := [], content := "{}", plugins := [], uid := "u8" }

def exSelBad : LabelSelector :=
  { matchLabels := [],
    matchExpressions := [{ key := "k", operator := .opBad "Foo", values := [] }] }

def exStateBad : ControllerState :=
  { grafanaReady := true, dashboardSelectors := some [exSelBad],
    dashboardNamespaceSelector := none, adminUrl := "http://grafana", adminUsername := "admin",
    adminPassword := "secret", clientTimeout := 5 }

def exCfg10 : ControllerConfig := { dashboards := [], plugins := [], configItems := [] }

def exEnv10 : ClusterEnv :=
  { nspaces := [], dashboards := [], listFailure := none, getFailures := [] }

def exGc10 : GrafanaClient :=
  { getOrCreateNamespaceFolder := fun _ => .ok { id := some 1 },
    createOrUpdateDashboard := fun _ _ => .ok { status := some "ok", message := some "ok" },
    deleteDashboardByUID := fun _ =>
      ({ status := some "ok", message := some "deleted" }, none) }

def exState4 : ControllerState :=
  { grafanaReady := true, dashboardSelectors := some [exSelOk],
    dashboardNamespaceSelector := none, adminUrl := "http://grafana", adminUsername := "admin",
    adminPassword := "secret", clientTimeout := 5 }

def exDashA : Dashboard :=
  { name := "a", nspace := "ns4", labels := [], content := "ca", plugins := [], uid := "ua" }

def exDashB : Dashboard :=
  { name := "b", nspace := "ns4", labels := [], content := "cb", plugins := [], uid := "ub" }

def exDashC : Dashboard :=
  { name := "c", nspace := "ns4", labels := [], content := "cc", plugins := [], uid := "uc" }

def exEnv4 : ClusterEnv :=
  { nspaces := [("ns4", [])], dashboards := [exDashA, exDashB, exDashC],
    listFailure := none, getFailures := [] }

def exCfg4 : ControllerConfig := { dashboards := [], plugins := [], configItems := [] }

def exGc4 : GrafanaClient :=
  { getOrCreateNamespaceFolder := fun _ => .ok { id := some 7 },
    createOrUpdateDashboard := fun payload _ =>
      if payload == "cb" then .error "boom"
      else .ok { status := some "ok", message := some "ok" },
    deleteDashboardByUID := fun _ =>
      ({ status := some "ok", message := some "deleted" }, none) }

def exState5 : ControllerState :=
  { grafanaReady := true, dashboardSelectors := some [exSelOk],
    dashboardNamespaceSelector := none, adminUrl := "http://grafana", adminUsername := "admin",
    adminPassword := "secret", clientTimeout := 5 }

def exDash5 : Dashboard :=
  { name := "d5", nspace := "ns5", labels := [], content := "c5", plugins := ["piechart"],
    uid := "u5" }

def exCfg5 : ControllerConfig :=
  { dashboards := [{ name := "d5", nspace := "ns5", hash := hashContent "c5", uid := "u5" }],
    plugins := [], configItems := [] }

def exEnv5 : ClusterEnv :=
  { nspaces := [("ns5", [])], dashboards := [exDash5], listFailure := none, getFailures := [] }

def exState9 : ControllerState :=
  { grafanaReady := true, dashboardSelectors := some [exSel7],
    dashboardNamespaceSelector := some exSel8, adminUrl := "http://grafana",
    adminUsername := "admin", adminPassword := "secret", clientTimeout := 5 }

def exDash9 : Dashboard :=
  { name := "d9", nspace := "staging", labels := [("team", "x")], content := "c9",
    plugins := [], uid := "u9" }

def exEnv9 : ClusterEnv :=
  { nspaces := [("staging", [("env", "staging")])], dashboards := [exDash9],
    listFailure := none, getFailures := [] }

def exCfg9 : ControllerConfig := { dashboards := [], plugins := [], configItems := [] }

/-! ### Theorems -/

theorem submitStep_eq (gc : GrafanaClient) (d : Dashboard) (p : String) (s : PassSt) :
    submitStep gc d p s =
      { cfg := (submitEffects gc d p).2.2 s.cfg,
        calls := s.calls ++ (submitEffects gc d p).1,
        events := s.events ++ (submitEffects gc d p).2.1 } := by
  unfold submitStep submitEffects
  cases hf : gc.getOrCreateNamespaceFolder d.nspace with
  | error e => simp [hf]
  | ok folder =>
    cases hc : gc.createOrUpdateDashboard p (folderIdOf folder) with
    | error e => simp [hf, hc]
    | ok r => simp [hf, hc]

theorem processStep_eq (state : ControllerState) (env : ClusterEnv) (gc : GrafanaClient)
    (pipe : Pipeline) (known : List DashboardRef) (d : Dashboard) (s : PassSt) :
    processStep state env gc pipe known d s =
      { cfg := (stepEffects state env gc pipe known d).2.2 s.cfg,
        calls := s.calls ++ (stepEffects state env gc pipe known d).1,
        events := s.events ++ (stepEffects state env gc pipe known d).2.1 } := by
  unfold processStep stepEffects
  cases hm : isMatch state d with
  | false => simp
  | true =>
    simp only [Bool.not_true, Bool.false_eq_true, if_neg, ite_false]
    cases hp : pipe d (findHash known d) with
    | error e => simp
    | ok payload =>
      cases payload with
      | none => simp
      | some processed =>
        cases hsel : state.dashboardNamespaceSelector with
        | none => simp [submitStep_eq]
        | some sel =>
          cases hns : checkNamespaceLabels env state d with
          | error e => simp
          | ok b =>
            cases b with
            | false => simp
            | true => simp [submitStep_eq]

theorem processLoop_eq (state : ControllerState) (env : ClusterEnv) (gc : GrafanaClient)
    (pipe : Pipeline) (known : List DashboardRef) (items : List Dashboard) (s : PassSt) :
    processLoop state env gc pipe known items s =
      { cfg := passUpd state env gc pipe known items s.cfg,
        calls := s.calls ++ passCalls state env gc pipe known items,
        events := s.events ++ passEvents state env gc pipe known items } := by
  induction items generalizing s with
  | nil => simp [processLoop, passUpd, passCalls, passEvents]
  | cons d rest ih =>
    rw [processLoop, processStep_eq, ih]
    simp [passUpd, passCalls, passEvents]

theorem deleteLoop_eq (gc : GrafanaClient) (h : gc.deleteWellFormed)
    (ds : List DashboardRef) (s : PassSt) :
    deleteLoop gc ds s =
      .ok { cfg := removeRefs ds s.cfg,
            calls := s.calls ++ ds.map (fun r => Call.deleteByUID r.uid),
            events := s.events } := by
  induction ds generalizing s with
  | nil => simp [deleteLoop, removeRefs]
  | cons d rest ih =>
    have h1 := (h d.uid).1
    have h2 := (h d.uid).2
    have hc : derefCrash (gc.deleteDashboardByUID d.uid).1 (gc.deleteDashboardByUID d.uid).2
        = false := by
      rcases Option.isSome_iff_exists.mp h1 with ⟨v1, hv1⟩
      rcases Option.isSome_iff_exists.mp h2 with ⟨v2, hv2⟩
      simp [derefCrash, hv1, hv2]
    rw [deleteLoop, deleteStep]
    simp only [hc, Bool.false_eq_true, if_false]
    rw [ih]
    simp [removeRefs]

theorem reconcile_ok (state : ControllerState) (cfg : ControllerConfig) (gc : GrafanaClient)
    (pipe : Pipeline) (env : ClusterEnv) (ns : String) (items : List Dashboard)
    (hwf : gc.deleteWellFormed) (hlist : env.listDashboards ns = .ok items) :
    reconcileDashboards state cfg gc pipe env ns =
      .ok (passFinal state cfg gc pipe env ns items) := by
  rw [reconcileDashboards, hlist]
  simp only []
  rw [processLoop_eq, deleteLoop_eq gc hwf]
  simp [passFinal]

theorem find?_cons_pos {α : Type} (p : α → Bool) (x : α) (l : List α) (h : p x = true) :
    List.find? p (x :: l) = some x := by
  simp [List.find?_cons, h]

theorem find?_cons_neg {α : Type} (p : α → Bool) (x : α) (l : List α) (h : p x = false) :
    List.find? p (x :: l) = List.find? p l := by
  simp [List.find?_cons, h]

theorem key_pred_false_of_ne (x y a b : String) (hne : ¬(x = a ∧ y = b)) :
    (x == a && y == b) = false := by
  cases hq : (x == a && y == b) with
  | false => rfl
  | true =>
    rw [Bool.and_eq_true] at hq
    obtain ⟨q1, q2⟩ := hq
    rw [beq_iff_eq] at q1 q2
    exact absurd ⟨q1, q2⟩ hne

theorem find?_filter_of_imp {α : Type} (l : List α) (p q : α → Bool)
    (h : ∀ x, p x = true → q x = true) :
    (l.filter q).find? p = l.find? p := by
  induction l with
  | nil => rfl
  | cons x xs ih =>
    cases hq : q x with
    | true =>
      rw [List.filter_cons_of_pos hq]
      cases hp : p x with
      | true => rw [find?_cons_pos p x (xs.filter q) hp, find?_cons_pos p x xs hp]
      | false =>
        rw [find?_cons_neg p x (xs.filter q) hp, find?_cons_neg p x xs hp]
        exact ih
    | false =>
      have hp : p x = false := by
        cases hpx : p x with
        | false => rfl
        | true => rw [h x hpx] at hq; cases hq
      rw [List.filter_cons_of_neg (by simp [hq]), find?_cons_neg p x xs hp]
      exact ih

theorem find?_filter_none {α : Type} (l : List α) (p q : α → Bool) (h : l.find? p = none) :
    (l.filter q).find? p = none := by
  rw [List.find?_eq_none] at *
  exact fun x hx => h x (List.mem_of_mem_filter hx)

theorem lookupRef_setPluginsFor (c : ControllerConfig) (d : Dashboard) (a b : String) :
    lookupRef (c.setPluginsFor d) a b = lookupRef c a b := rfl

theorem lookupRef_removePluginsFor (c : ControllerConfig) (a2 b2 a b : String) :
    lookupRef (c.removePluginsFor a2 b2) a b = lookupRef c a b := rfl

theorem lookupRef_addConfigItem (c : ControllerConfig) (k : String) (v : Bool) (a b : String) :
    lookupRef (c.addConfigItem k v) a b = lookupRef c a b := rfl

theorem lookupPlugins_removeDashboard (c : ControllerConfig) (a2 b2 a b : String) :
    lookupPlugins (c.removeDashboard a2 b2) a b = lookupPlugins c a b := rfl

theorem lookupPlugins_addConfigItem (c : ControllerConfig) (k : String) (v : Bool) (a b : String) :
    lookupPlugins (c.addConfigItem k v) a b = lookupPlugins c a b := rfl

theorem lookupRef_removeDashboard_self (c : ControllerConfig) (a b : String) :
    lookupRef (c.removeDashboard a b) a b = none := by
  simp only [lookupRef, ControllerConfig.removeDashboard]
  rw [List.find?_eq_none]
  intro r hr
  have h2 := List.of_mem_filter hr
  simp only [Bool.not_eq_true'] at h2
  simp [h2]

theorem lookupRef_none_removeDashboard (c : ControllerConfig) (a2 b2 a b : String)
    (h : lookupRef c a b = none) : lookupRef (c.removeDashboard a2 b2) a b = none := by
  simp only [lookupRef, ControllerConfig.removeDashboard] at *
  exact find?_filter_none _ _ _ h

theorem lookupPlugins_removePluginsFor_self (c : ControllerConfig) (a b : String) :
    lookupPlugins (c.removePluginsFor a b) a b = none := by
  simp only [lookupPlugins, ControllerConfig.removePluginsFor]
  have h : (c.plugins.filter fun p => !(p.1.1 == a && p.1.2 == b)).find?
      (fun p => p.1.1 == a && p.1.2 == b) = none := by
    rw [List.find?_eq_none]
    intro x hx
    have h2 := List.of_mem_filter hx
    simp only [Bool.not_eq_true'] at h2
    simp [h2]
  rw [h]
  rfl

theorem lookupPlugins_none_removePluginsFor (c : ControllerConfig) (a2 b2 a b : String)
    (h : lookupPlugins c a b = none) : lookupPlugins (c.removePluginsFor a2 b2) a b = none := by
  simp only [lookupPlugins, ControllerConfig.removePluginsFor, Option.map_eq_none'] at *
  exact find?_filter_none _ _ _ h

theorem refKey_mkRef (d : Dashboard) :
    ((mkRef d).nspace == d.nspace && (mkRef d).name == d.name) = true := by
  simp [mkRef]

theorem find?_replace_self (l : List DashboardRef) (d : Dashboard)
    (h : l.any (fun r => r.nspace == d.nspace && r.name == d.name) = true) :
    (l.map (fun r => if r.nspace == d.nspace && r.name == d.name then mkRef d else r)).find?
      (fun r => r.nspace == d.nspace && r.name == d.name) = some (mkRef d) := by
  induction l with
  | nil => simp at h
  | cons x xs ih =>
    cases hx : (x.nspace == d.nspace && x.name == d.name) with
    | true =>
      simp only [List.map_cons, hx, if_true]
      exact find?_cons_pos (fun r => r.nspace == d.nspace && r.name == d.name) (mkRef d) _
        (refKey_mkRef d)
    | false =>
      have h2 : xs.any (fun r => r.nspace == d.nspace && r.name == d.name) = true := by
        rw [List.any_cons, hx] at h
        simpa using h
      simp only [List.map_cons, hx, Bool.false_eq_true, if_false]
      rw [find?_cons_neg (fun r => r.nspace == d.nspace && r.name == d.name) x _ hx]
      exact ih h2

theorem find?_append_self (l : List DashboardRef) (d : Dashboard)
    (h : l.any (fun r => r.nspace == d.nspace && r.name == d.name) = false) :
    (l ++ [mkRef d]).find? (fun r => r.nspace == d.nspace && r.name == d.name)
      = some (mkRef d) := by
  induction l with
  | nil =>
    rw [List.nil_append]
    exact find?_cons_pos (fun r => r.nspace == d.nspace && r.name == d.name) (mkRef d) []
      (refKey_mkRef d)
  | cons x xs ih =>
    rw [List.any_cons] at h
    rcases Bool.or_eq_false_iff.mp h with ⟨hx, hxs⟩
    rw [List.cons_append,
      find?_cons_neg (fun r => r.nspace == d.nspace && r.name == d.name) x _ hx]
    exact ih hxs

theorem lookupRef_addDashboard_self (c : ControllerConfig) (d : Dashboard) :
    lookupRef (c.addDashboard d) d.nspace d.name = some (mkRef d) := by
  simp only [lookupRef, ControllerConfig.addDashboard]
  cases h : c.dashboards.any (fun r => r.nspace == d.nspace && r.name == d.name) with
  | true => simp only [h, if_true]; exact find?_replace_self c.dashboards d h
  | false =>
    simp only [h, Bool.false_eq_true, if_false]
    exact find?_append_self c.dashboards d h

theorem find?_replace_other (l : List DashboardRef) (d : Dashboard) (a b : String)
    (hne : ¬(d.nspace = a ∧ d.name = b)) :
    (l.map (fun r => if r.nspace == d.nspace && r.name == d.name then mkRef d else r)).find?
      (fun r => r.nspace == a && r.name == b) =
    l.find? (fun r => r.nspace == a && r.name == b) := by
  induction l with
  | nil => rfl
  | cons x xs ih =>
    cases hx : (x.nspace == d.nspace && x.name == d.name) with
    | false =>
      simp only [List.map_cons, hx, Bool.false_eq_true, if_false]
      cases hp : (x.nspace == a && x.name == b) with
      | true =>
        rw [find?_cons_pos (fun r => r.nspace == a && r.name == b) x _ hp,
          find?_cons_pos (fun r => r.nspace == a && r.name == b) x xs hp]
      | false =>
        rw [find?_cons_neg (fun r => r.nspace == a && r.name == b) x _ hp,
          find?_cons_neg (fun r => r.nspace == a && r.name == b) x xs hp]
        exact ih
    | true =>
      rw [Bool.and_eq_true] at hx
      obtain ⟨h1, h2⟩ := hx
      rw [beq_iff_eq] at h1 h2
      have hxa : (x.nspace == a && x.name == b) = false := by
        rw [h1, h2]
        exact key_pred_false_of_ne d.nspace d.name a b hne
      have hma : ((mkRef d).nspace == a && (mkRef d).name == b) = false :=
        key_pred_false_of_ne d.nspace d.name a b hne
      have hx2 : (x.nspace == d.nspace && x.name == d.name) = true := by
        rw [h1, h2]; simp
      simp only [List.map_cons, hx2, if_true]
      rw [find?_cons_neg (fun r => r.nspace == a && r.name == b) (mkRef d) _ hma,
        find?_cons_neg (fun r => r.nspace == a && r.name == b) x xs hxa]
      exact ih

theorem find?_append_other (l : List DashboardRef) (d : Dashboard) (a b : String)
    (hne : ¬(d.nspace = a ∧ d.name = b)) :
    (l ++ [mkRef d]).find? (fun r => r.nspace == a && r.name == b) =
      l.find? (fun r => r.nspace == a && r.name == b) := by
  induction l with
  | nil =>
    rw [List.nil_append,
      find?_cons_neg (fun r => r.nspace == a && r.name == b) (mkRef d) []
        (key_pred_false_of_ne d.nspace d.name a b hne)]
  | cons x xs ih =>
    cases hp : (x.nspace == a && x.name == b) with
    | true =>
      rw [List.cons_append, find?_cons_pos (fun r => r.nspace == a && r.name == b) x _ hp,
        find?_cons_pos (fun r => r.nspace == a && r.name == b) x xs hp]
    | false =>
      rw [List.cons_append, find?_cons_neg (fun r => r.nspace == a && r.name == b) x _ hp,
        find?_cons_neg (fun r => r.nspace == a && r.name == b) x xs hp]
      exact ih

theorem lookupRef_addDashboard_other (c : ControllerConfig) (d : Dashboard) (a b : String)
    (hne : ¬(d.nspace = a ∧ d.name = b)) :
    lookupRef (c.addDashboard d) a b = lookupRef c a b := by
  simp only [lookupRef, ControllerConfig.addDashboard]
  cases h : c.dashboards.any (fun r => r.nspace == d.nspace && r.name == d.name) with
  | true => simp only [h, if_true]; exact find?_replace_other c.dashboards d a b hne
  | false =>
    simp only [h, Bool.false_eq_true, if_false]
    exact find?_append_other c.dashboards d a b hne

theorem lookupPlugins_setPluginsFor_self (c : ControllerConfig) (d : Dashboard) :
    lookupPlugins (c.setPluginsFor d) d.nspace d.name = some d.plugins := by
  simp only [lookupPlugins, ControllerConfig.setPluginsFor]
  rw [find?_cons_pos (fun p => p.1.1 == d.nspace && p.1.2 == d.name)
    ((d.nspace, d.name), d.plugins) _ (by simp)]
  rfl

theorem lookupPlugins_setPluginsFor_other (c : ControllerConfig) (d : Dashboard) (a b : String)
    (hne : ¬(d.nspace = a ∧ d.name = b)) :
    lookupPlugins (c.setPluginsFor d) a b = lookupPlugins c a b := by
  simp only [lookupPlugins, ControllerConfig.setPluginsFor]
  rw [find?_cons_neg (fun p => p.1.1 == a && p.1.2 == b)
    ((d.nspace, d.name), d.plugins) _ (key_pred_false_of_ne d.nspace d.name a b hne)]
  rw [find?_filter_of_imp]
  intro x hx
  cases hq : (x.1.1 == d.nspace && x.1.2 == d.name) with
  | false => simp [hq]
  | true =>
    rw [Bool.and_eq_true] at hq hx
    obtain ⟨q1, q2⟩ := hq
    obtain ⟨p1, p2⟩ := hx
    rw [beq_iff_eq] at q1 q2 p1 p2
    exact absurd ⟨q1 ▸ p1, q2 ▸ p2⟩ hne

theorem lookupPlugins_addDashboard (c : ControllerConfig) (d : Dashboard) (a b : String) :
    lookupPlugins (c.addDashboard d) a b = lookupPlugins c a b := by
  simp only [lookupPlugins, ControllerConfig.addDashboard]
  cases h : c.dashboards.any (fun r => r.nspace == d.nspace && r.name == d.name) with
  | true => simp only [h, if_true]
  | false => simp only [h, Bool.false_eq_true, if_false]

theorem submitUpd_cases (gc : GrafanaClient) (d : Dashboard) (p : String) :
    (submitEffects gc d p).2.2 = id ∨
    (submitEffects gc d p).2.2 = (fun c => (c.addDashboard d).setPluginsFor d) := by
  unfold submitEffects
  cases hf : gc.getOrCreateNamespaceFolder d.nspace with
  | error e => simp [hf]
  | ok folder =>
    cases hc : gc.createOrUpdateDashboard p (folderIdOf folder) with
    | error e => simp [hf, hc]
    | ok r => simp [hf, hc]

theorem stepUpd_cases (state : ControllerState) (env : ClusterEnv) (gc : GrafanaClient)
    (pipe : Pipeline) (known : List DashboardRef) (d : Dashboard) :
    (stepEffects state env gc pipe known d).2.2 = id ∨
    (stepEffects state env gc pipe known d).2.2 = (fun c => c.setPluginsFor d) ∨
    (stepEffects state env gc pipe known d).2.2 = (fun c => (c.addDashboard d).setPluginsFor d) := by
  unfold stepEffects
  cases hm : isMatch state d with
  | false => simp [hm]
  | true =>
    cases hp : pipe d (findHash known d) with
    | error e => simp [hm, hp]
    | ok payload =>
      cases payload with
      | none => simp [hm, hp]
      | some processed =>
        cases hsel : state.dashboardNamespaceSelector with
        | none =>
          simp only [hm, hp, hsel, Bool.not_true, Bool.false_eq_true, if_false]
          rcases submitUpd_cases gc d processed with h | h <;> simp [h]
        | some sel =>
          cases hns : checkNamespaceLabels env state d with
          | error e => simp [hm, hp, hsel, hns]
          | ok b =>
            cases b with
            | false => simp [hm, hp, hsel, hns]
            | true =>
              simp only [hm, hp, hsel, hns, Bool.not_true, Bool.false_eq_true, if_false]
              rcases submitUpd_cases gc d processed with h | h <;> simp [h]

theorem lookupRef_stepUpd_other (state : ControllerState) (env : ClusterEnv) (gc : GrafanaClient)
    (pipe : Pipeline) (known : List DashboardRef) (x : Dashboard) (a b : String)
    (hne : ¬(x.nspace = a ∧ x.name = b)) (c : ControllerConfig) :
    lookupRef ((stepEffects state env gc pipe known x).2.2 c) a b = lookupRef c a b := by
  rcases stepUpd_cases state env gc pipe known x with h | h | h <;> rw [h]
  · rfl
  · exact lookupRef_setPluginsFor c x a b
  · exact (lookupRef_setPluginsFor (c.addDashboard x) x a b).trans
      (lookupRef_addDashboard_other c x a b hne)

theorem passUpd_lookup_preserve (state : ControllerState) (env : ClusterEnv) (gc : GrafanaClient)
    (pipe : Pipeline) (known : List DashboardRef) (items : List Dashboard) (a b : String)
    (c : ControllerConfig)
    (h : ∀ x ∈ items, ∀ c2,
      lookupRef ((stepEffects state env gc pipe known x).2.2 c2) a b = lookupRef c2 a b) :
    lookupRef (passUpd state env gc pipe known items c) a b = lookupRef c a b := by
  revert h
  induction items generalizing c with
  | nil => intro h; rfl
  | cons x rest ih =>
    intro h
    simp only [passUpd, List.foldl_cons]
    have ih2 := ih ((stepEffects state env gc pipe known x).2.2 c)
      (fun y hy c2 => h y (List.mem_cons_of_mem x hy) c2)
    simp only [passUpd] at ih2
    rw [ih2, h x (List.mem_cons_self x rest) c]

theorem eq_of_mem_keysNodup (items : List Dashboard) (hkeys : keysNodup items)
    (x y : Dashboard) (hx : x ∈ items) (hy : y ∈ items)
    (hk : x.nspace = y.nspace ∧ x.name = y.name) : x = y := by
  refine List.inj_on_of_nodup_map hkeys hx hy ?_
  simp [hk.1, hk.2]

theorem keysNodup_right_ne (l1 l2 : List Dashboard) (d : Dashboard)
    (hkeys : keysNodup (l1 ++ d :: l2)) :
    ∀ y ∈ l2, ¬(y.nspace = d.nspace ∧ y.name = d.name) := by
  intro y hy hcontra
  have hmap : ((l1.map (fun d => (d.nspace, d.name))) ++
      (d.nspace, d.name) :: l2.map (fun d => (d.nspace, d.name))).Nodup := by
    simpa [keysNodup] using hkeys
  have h2 := (List.nodup_append.mp hmap).2.1
  have h3 := (List.nodup_cons.mp h2).1
  exact h3 (List.mem_map.mpr ⟨y, hy, by simp [hcontra.1, hcontra.2]⟩)

theorem passUpd_lookup_mem_add (state : ControllerState) (env : ClusterEnv) (gc : GrafanaClient)
    (pipe : Pipeline) (known : List DashboardRef) (items : List Dashboard)
    (d : Dashboard) (c : ControllerConfig) (hkeys : keysNodup items) (hd : d ∈ items)
    (hupd : (stepEffects state env gc pipe known d).2.2
      = (fun c2 => (c2.addDashboard d).setPluginsFor d)) :
    lookupRef (passUpd state env gc pipe known items c) d.nspace d.name = some (mkRef d) := by
  obtain ⟨l1, l2, rfl⟩ := List.append_of_mem hd
  have hsplit : passUpd state env gc pipe known (l1 ++ d :: l2) c =
      passUpd state env gc pipe known l2
        ((stepEffects state env gc pipe known d).2.2 (passUpd state env gc pipe known l1 c)) := by
    simp only [passUpd, List.foldl_append, List.foldl_cons]
  rw [hsplit, hupd]
  have hl2 := keysNodup_right_ne l1 l2 d hkeys
  have hpres := passUpd_lookup_preserve state env gc pipe known l2 d.nspace d.name
    ((fun c2 => (c2.addDashboard d).setPluginsFor d) (passUpd state env gc pipe known l1 c))
    (fun y hy c2 => lookupRef_stepUpd_other state env gc pipe known y d.nspace d.name
      (hl2 y hy) c2)
  rw [hpres]
  exact (lookupRef_setPluginsFor ((passUpd state env gc pipe known l1 c).addDashboard d)
    d d.nspace d.name).trans (lookupRef_addDashboard_self _ d)

theorem lookupRef_removeDashboard_other (c : ControllerConfig) (a2 b2 a b : String)
    (hne : ¬(a2 = a ∧ b2 = b)) :
    lookupRef (c.removeDashboard a2 b2) a b = lookupRef c a b := by
  simp only [lookupRef, ControllerConfig.removeDashboard]
  rw [find?_filter_of_imp]
  intro x hx
  rw [Bool.and_eq_true] at hx
  obtain ⟨p1, p2⟩ := hx
  rw [beq_iff_eq] at p1 p2
  have hf : (x.nspace == a2 && x.name == b2) = false := by
    rw [p1, p2]
    exact key_pred_false_of_ne a b a2 b2 (fun hc => hne ⟨hc.1.symm, hc.2.symm⟩)
  simp [hf]

theorem removeRefs_lookupRef_none (ds : List DashboardRef) (c : ControllerConfig) (a b : String)
    (h : lookupRef c a b = none) : lookupRef (removeRefs ds c) a b = none := by
  induction ds generalizing c with
  | nil => exact h
  | cons r rest ih =>
    simp only [removeRefs, List.foldl_cons]
    exact ih _ (lookupRef_none_removeDashboard (c.removePluginsFor r.nspace r.name)
      r.nspace r.name a b ((lookupRef_removePluginsFor c r.nspace r.name a b).trans h))

theorem removeRefs_lookupRef_mem (ds : List DashboardRef) (c : ControllerConfig)
    (r : DashboardRef) (hr : r ∈ ds) :
    lookupRef (removeRefs ds c) r.nspace r.name = none := by
  revert hr
  induction ds generalizing c with
  | nil => intro hr; cases hr
  | cons x rest ih =>
    intro hr
    simp only [removeRefs, List.foldl_cons]
    rcases List.mem_cons.mp hr with rfl | hmem
    · exact removeRefs_lookupRef_none rest _ r.nspace r.name
        (lookupRef_removeDashboard_self _ r.nspace r.name)
    · exact ih _ hmem

theorem removeRefs_lookupPlugins_none (ds : List DashboardRef) (c : ControllerConfig)
    (a b : String) (h : lookupPlugins c a b = none) :
    lookupPlugins (removeRefs ds c) a b = none := by
  induction ds generalizing c with
  | nil => exact h
  | cons r rest ih =>
    simp only [removeRefs, List.foldl_cons]
    refine ih _ ?_
    rw [lookupPlugins_removeDashboard]
    exact lookupPlugins_none_removePluginsFor c r.nspace r.name a b h

theorem removeRefs_lookupPlugins_mem (ds : List DashboardRef) (c : ControllerConfig)
    (r : DashboardRef) (hr : r ∈ ds) :
    lookupPlugins (removeRefs ds c) r.nspace r.name = none := by
  revert hr
  induction ds generalizing c with
  | nil => intro hr; cases hr
  | cons x rest ih =>
    intro hr
    simp only [removeRefs, List.foldl_cons]
    rcases List.mem_cons.mp hr with rfl | hmem
    · refine removeRefs_lookupPlugins_none rest _ r.nspace r.name ?_
      rw [lookupPlugins_removeDashboard]
      exact lookupPlugins_removePluginsFor_self _ r.nspace r.name
    · exact ih _ hmem

theorem removeRefs_lookupRef_other (ds : List DashboardRef) (c : ControllerConfig) (a b : String)
    (h : ∀ r ∈ ds, ¬(r.nspace = a ∧ r.name = b)) :
    lookupRef (removeRefs ds c) a b = lookupRef c a b := by
  revert h
  induction ds generalizing c with
  | nil => intro h; rfl
  | cons x rest ih =>
    intro h
    simp only [removeRefs, List.foldl_cons]
    have ih2 := ih ((c.removePluginsFor x.nspace x.name).removeDashboard x.nspace x.name)
      (fun r hr => h r (List.mem_cons_of_mem x hr))
    simp only [removeRefs] at ih2
    rw [ih2, lookupRef_removeDashboard_other _ x.nspace x.name a b
      (h x (List.mem_cons_self x rest)), lookupRef_removePluginsFor]

theorem submitCalls_noDelete (gc : GrafanaClient) (d : Dashboard) (p : String) :
    (submitEffects gc d p).1.filter isDeleteCall = [] := by
  unfold submitEffects
  cases hf : gc.getOrCreateNamespaceFolder d.nspace with
  | error e => simp [hf, isDeleteCall]
  | ok folder =>
    cases hc : gc.createOrUpdateDashboard p (folderIdOf folder) with
    | error e => simp [hf, hc, isDeleteCall]
    | ok r => simp [hf, hc, isDeleteCall]

theorem stepCalls_noDelete (state : ControllerState) (env : ClusterEnv) (gc : GrafanaClient)
    (pipe : Pipeline) (known : List DashboardRef) (d : Dashboard) :
    (stepEffects state env gc pipe known d).1.filter isDeleteCall = [] := by
  unfold stepEffects
  cases hm : isMatch state d with
  | false => simp
  | true =>
    cases hp : pipe d (findHash known d) with
    | error e => simp [hp]
    | ok payload =>
      cases payload with
      | none => simp [hp]
      | some processed =>
        cases hsel : state.dashboardNamespaceSelector with
        | none => simp [hp, hsel, submitCalls_noDelete]
        | some sel =>
          cases hns : checkNamespaceLabels env state d with
          | error e => simp [hp, hsel, hns]
          | ok b =>
            cases b with
            | false => simp [hp, hsel, hns]
            | true => simp [hp, hsel, hns, submitCalls_noDelete]

theorem flatMap_nil_of_forall {α β : Type} (l : List α) (f : α → List β)
    (h : ∀ x ∈ l, f x = []) : l.flatMap f = [] := by
  induction l with
  | nil => rfl
  | cons x xs ih =>
    rw [List.flatMap_cons, h x (List.mem_cons_self x xs),
      ih (fun y hy => h y (List.mem_cons_of_mem x hy))]
    rfl

theorem passCalls_noDelete (state : ControllerState) (env : ClusterEnv) (gc : GrafanaClient)
    (pipe : Pipeline) (known : List DashboardRef) (items : List Dashboard) :
    (passCalls state env gc pipe known items).filter isDeleteCall = [] := by
  induction items with
  | nil => rfl
  | cons d rest ih =>
    simp only [passCalls, List.flatMap_cons, List.filter_append]
    rw [stepCalls_noDelete]
    simpa [passCalls] using ih

theorem mapDelete_filter (ds : List DashboardRef) :
    (ds.map (fun r => Call.deleteByUID r.uid)).filter isDeleteCall =
      ds.map (fun r => Call.deleteByUID r.uid) := by
  induction ds with
  | nil => rfl
  | cons r rest ih => simp only [List.map_cons, List.filter_cons, isDeleteCall, if_true, ih]

theorem passEvents_mem (state : ControllerState) (env : ClusterEnv) (gc : GrafanaClient)
    (pipe : Pipeline) (known : List DashboardRef) (items : List Dashboard) (d : Dashboard)
    (ev : Event) (hd : d ∈ items) (hev : ev ∈ (stepEffects state env gc pipe known d).2.1) :
    ev ∈ passEvents state env gc pipe known items :=
  List.mem_flatMap.mpr ⟨d, hd, hev⟩

theorem submitEffects_fail (gc : GrafanaClient) (d : Dashboard) (p : String)
    (h : (∃ e, gc.getOrCreateNamespaceFolder d.nspace = .error e) ∨
         (∃ fl, gc.getOrCreateNamespaceFolder d.nspace = .ok fl ∧
           ∃ e, gc.createOrUpdateDashboard p (folderIdOf fl) = .error e)) :
    (∃ e, (submitEffects gc d p).2.1 = [Event.processingError d.nspace d.name e]) ∧
    (submitEffects gc d p).2.2 = id := by
  unfold submitEffects
  rcases h with ⟨e, he⟩ | ⟨fl, hfl, e, he⟩
  · simp only [he]
    exact ⟨⟨e, rfl⟩, trivial⟩
  · simp only [hfl, he]
    exact ⟨⟨e, rfl⟩, trivial⟩

theorem submitEffects_succeed (gc : GrafanaClient) (d : Dashboard) (p : String)
    (fl : Folder) (r : GrafanaResponse)
    (hfl : gc.getOrCreateNamespaceFolder d.nspace = .ok fl)
    (hcr : gc.createOrUpdateDashboard p (folderIdOf fl) = .ok r) :
    (submitEffects gc d p).2.1 = [Event.success d.nspace d.name] ∧
    (submitEffects gc d p).2.2 = (fun c => (c.addDashboard d).setPluginsFor d) := by
  unfold submitEffects
  simp only [hfl, hcr]
  exact ⟨trivial, trivial⟩

theorem stepEffects_fail (state : ControllerState) (env : ClusterEnv) (gc : GrafanaClient)
    (pipe : Pipeline) (known : List DashboardRef) (d : Dashboard)
    (h : applyFails state env gc pipe known d) :
    (∃ e, (stepEffects state env gc pipe known d).2.1
      = [Event.processingError d.nspace d.name e]) ∧
    (stepEffects state env gc pipe known d).2.2 = id := by
  obtain ⟨hm, h2⟩ := h
  unfold stepEffects
  rcases h2 with ⟨e, he⟩ | ⟨p, hp, h3⟩
  · simp only [hm, Bool.not_true, Bool.false_eq_true, if_false, he]
    exact ⟨⟨e, rfl⟩, trivial⟩
  · rcases h3 with ⟨hselne, e, hns⟩ | ⟨hgate, hsub⟩
    · obtain ⟨sel, hsel⟩ := Option.ne_none_iff_exists'.mp hselne
      simp only [hm, Bool.not_true, Bool.false_eq_true, if_false, hp, hsel, hns]
      exact ⟨⟨e, rfl⟩, trivial⟩
    · rcases hgate with hselnone | hnstrue
      · simp only [hm, Bool.not_true, Bool.false_eq_true, if_false, hp, hselnone]
        exact submitEffects_fail gc d p hsub
      · cases hsel : state.dashboardNamespaceSelector with
        | none =>
          simp only [hm, Bool.not_true, Bool.false_eq_true, if_false, hp, hsel]
          exact submitEffects_fail gc d p hsub
        | some sel =>
          simp only [hm, Bool.not_true, Bool.false_eq_true, if_false, hp, hsel, hnstrue]
          exact submitEffects_fail gc d p hsub

theorem stepEffects_succeed (state : ControllerState) (env : ClusterEnv) (gc : GrafanaClient)
    (pipe : Pipeline) (known : List DashboardRef) (d : Dashboard)
    (h : applySucceeds state env gc pipe known d) :
    (stepEffects state env gc pipe known d).2.1 = [Event.success d.nspace d.name] ∧
    (stepEffects state env gc pipe known d).2.2
      = (fun c => (c.addDashboard d).setPluginsFor d) := by
  obtain ⟨hm, p, fl, r, hp, hgate, hfl, hcr⟩ := h
  unfold stepEffects
  rcases hgate with hselnone | hnstrue
  · simp only [hm, Bool.not_true, Bool.false_eq_true, if_false, hp, hselnone]
    exact submitEffects_succeed gc d p fl r hfl hcr
  · cases hsel : state.dashboardNamespaceSelector with
    | none =>
      simp only [hm, Bool.not_true, Bool.false_eq_true, if_false, hp, hsel]
      exact submitEffects_succeed gc d p fl r hfl hcr
    | some sel =>
      simp only [hm, Bool.not_true, Bool.false_eq_true, if_false, hp, hsel, hnstrue]
      exact submitEffects_succeed gc d p fl r hfl hcr

theorem computeDeleteSet_key_ne (known : List DashboardRef) (items : List Dashboard)
    (d : Dashboard) (hd : d ∈ items) :
    ∀ r ∈ computeDeleteSet known items, ¬(r.nspace = d.nspace ∧ r.name = d.name) := by
  intro r hr hcon
  obtain ⟨hrk, hpred⟩ := List.mem_filter.mp hr
  have hin : inNamespace items r = true := by
    unfold inNamespace
    rw [List.any_eq_true]
    refine ⟨d, hd, ?_⟩
    simp [hcon.1, hcon.2]
  rw [hin] at hpred
  simp at hpred

theorem passFinal_lookup_preserved (state : ControllerState) (cfg : ControllerConfig)
    (gc : GrafanaClient) (pipe : Pipeline) (env : ClusterEnv) (ns : String)
    (items : List Dashboard) (d : Dashboard) (hkeys : keysNodup items) (hd : d ∈ items)
    (hid : (stepEffects state env gc pipe (cfg.getDashboards ns) d).2.2 = id) :
    lookupRef (passFinal state cfg gc pipe env ns items).cfg d.nspace d.name
      = lookupRef cfg d.nspace d.name := by
  have hdel := computeDeleteSet_key_ne (cfg.getDashboards ns) items d hd
  have hperitem : ∀ x ∈ items, ∀ c2,
      lookupRef ((stepEffects state env gc pipe (cfg.getDashboards ns) x).2.2 c2)
        d.nspace d.name = lookupRef c2 d.nspace d.name := by
    intro x hx c2
    by_cases hk : x.nspace = d.nspace ∧ x.name = d.name
    · have hxd : x = d := eq_of_mem_keysNodup items hkeys x d hx hd hk
      subst hxd
      rw [hid]
      rfl
    · exact lookupRef_stepUpd_other state env gc pipe (cfg.getDashboards ns) x
        d.nspace d.name hk c2
  simp only [passFinal]
  rw [lookupRef_addConfigItem, removeRefs_lookupRef_other _ _ _ _ hdel,
    passUpd_lookup_preserve state env gc pipe (cfg.getDashboards ns) items
      d.nspace d.name cfg hperitem]

theorem passFinal_lookup_added (state : ControllerState) (cfg : ControllerConfig)
    (gc : GrafanaClient) (pipe : Pipeline) (env : ClusterEnv) (ns : String)
    (items : List Dashboard) (d : Dashboard) (hkeys : keysNodup items) (hd : d ∈ items)
    (hupd : (stepEffects state env gc pipe (cfg.getDashboards ns) d).2.2
      = (fun c2 => (c2.addDashboard d).setPluginsFor d)) :
    lookupRef (passFinal state cfg gc pipe env ns items).cfg d.nspace d.name
      = some (mkRef d) := by
  have hdel := computeDeleteSet_key_ne (cfg.getDashboards ns) items d hd
  simp only [passFinal]
  rw [lookupRef_addConfigItem, removeRefs_lookupRef_other _ _ _ _ hdel]
  exact passUpd_lookup_mem_add state env gc pipe (cfg.getDashboards ns) items d cfg
    hkeys hd hupd

theorem reconcile_ok_nodelete (state : ControllerState) (cfg : ControllerConfig)
    (gc : GrafanaClient) (pipe : Pipeline) (env : ClusterEnv) (ns : String)
    (items : List Dashboard) (hlist : env.listDashboards ns = .ok items)
    (hdelnil : computeDeleteSet (cfg.getDashboards ns) items = []) :
    reconcileDashboards state cfg gc pipe env ns =
      .ok { cfg := (passUpd state env gc pipe (cfg.getDashboards ns) items cfg).addConfigItem
              "GrafanaDashboardsSynced" true,
            calls := passCalls state env gc pipe (cfg.getDashboards ns) items,
            events := passEvents state env gc pipe (cfg.getDashboards ns) items } := by
  rw [reconcileDashboards, hlist]
  simp only []
  rw [hdelnil, processLoop_eq]
  simp [deleteLoop]

theorem dashboards_addConfigItem (c : ControllerConfig) (k : String) (v : Bool) :
    (c.addConfigItem k v).dashboards = c.dashboards := rfl

theorem passUpd_dashboards_const (state : ControllerState) (env : ClusterEnv)
    (gc : GrafanaClient) (pipe : Pipeline) (known : List DashboardRef)
    (items : List Dashboard) (c : ControllerConfig)
    (h : ∀ x ∈ items, ∀ c2,
      ((stepEffects state env gc pipe known x).2.2 c2).dashboards = c2.dashboards) :
    (passUpd state env gc pipe known items c).dashboards = c.dashboards := by
  revert h
  induction items generalizing c with
  | nil => intro h; rfl
  | cons x rest ih =>
    intro h
    simp only [passUpd, List.foldl_cons]
    have ih2 := ih ((stepEffects state env gc pipe known x).2.2 c)
      (fun y hy c2 => h y (List.mem_cons_of_mem x hy) c2)
    simp only [passUpd] at ih2
    rw [ih2, h x (List.mem_cons_self x rest) c]

theorem matchesSelectors_ok_iff (d : Dashboard) (sels : List LabelSelector)
    (h : ∀ sel ∈ sels, ∃ b, matchesSelector d sel = .ok b) :
    ∃ b, matchesSelectors d sels = .ok b ∧
      (b = true ↔ ∃ sel ∈ sels, matchesSelector d sel = .ok true) := by
  induction sels with
  | nil => exact ⟨false, rfl, by simp⟩
  | cons s rest ih =>
    obtain ⟨b1, hb1⟩ := h s (List.mem_cons_self s rest)
    obtain ⟨b2, hb2, hiff⟩ := ih (fun sel hsel => h sel (List.mem_cons_of_mem s hsel))
    refine ⟨b1 || b2, ?_, ?_⟩
    · simp only [matchesSelectors, hb1, hb2]
    · constructor
      · intro hor
        rw [Bool.or_eq_true] at hor
        rcases hor with h1 | h2
        · exact ⟨s, List.mem_cons_self s rest, by rwa [h1] at hb1⟩
        · obtain ⟨sel, hm, hsel⟩ := hiff.mp h2
          exact ⟨sel, List.mem_cons_of_mem s hm, hsel⟩
      · rintro ⟨sel, hmem, hsel⟩
        rcases List.mem_cons.mp hmem with rfl | hmem2
        · have hb : b1 = true := Except.ok.inj (hb1.symm.trans hsel)
          rw [hb, Bool.true_or]
        · have hb : b2 = true := hiff.mpr ⟨sel, hmem2, hsel⟩
          rw [hb, Bool.or_true]

/-- C1 counterexample: the delete call for the stale entry (uid u1) fails,
yet after the pass the Registry entry for (ns1, a) is gone — the code removes
local bookkeeping unconditionally, so the claim "on failure the entry
persists" is false on this input. -/
theorem c1_counterexample :
    (exGcFailDelete.deleteDashboardByUID "u1").2 = some "delete failed" ∧
    (reconcileDashboards exStateC1 exCfgC1 exGcFailDelete renderPipeline exEnvC1
        "ns1").finalSt.map (fun s => lookupRef s.cfg "ns1" "a") = some none := by
  exact ⟨rfl, rfl⟩

/-- C1 (amended): for every registry entry in the delete set of a pass,
exactly one delete call is issued (the delete sub-trace is exactly one call
per entry, in order), and the Registry entry and its plugin metadata are
removed whether the delete call succeeded or failed. -/
theorem c1_delete_set_processed_unconditionally (state : ControllerState)
    (cfg : ControllerConfig) (gc : GrafanaClient) (pipe : Pipeline) (env : ClusterEnv)
    (ns : String) (items : List Dashboard) (hwf : gc.deleteWellFormed)
    (hlist : env.listDashboards ns = .ok items) :
    ∃ s, reconcileDashboards state cfg gc pipe env ns = .ok s ∧
      s.calls.filter isDeleteCall =
        (computeDeleteSet (cfg.getDashboards ns) items).map (fun r => Call.deleteByUID r.uid) ∧
      (∀ r ∈ computeDeleteSet (cfg.getDashboards ns) items,
        lookupRef s.cfg r.nspace r.name = none ∧ lookupPlugins s.cfg r.nspace r.name = none) := by
  refine ⟨_, reconcile_ok state cfg gc pipe env ns items hwf hlist, ?_, ?_⟩
  · simp only [passFinal, List.filter_append, passCalls_noDelete, mapDelete_filter,
      List.nil_append]
  · intro r hr
    constructor
    · simp only [passFinal]
      rw [lookupRef_addConfigItem]
      exact removeRefs_lookupRef_mem _ _ r hr
    · simp only [passFinal]
      rw [lookupPlugins_addConfigItem]
      exact removeRefs_lookupPlugins_mem _ _ r hr

/-- C1 witness: the amended theorem applied to the concrete failing-delete
scenario. -/
theorem c1_witness :
    ∃ s, reconcileDashboards exStateC1 exCfgC1 exGcFailDelete renderPipeline exEnvC1 "ns1"
        = .ok s ∧
      s.calls.filter isDeleteCall =
        (computeDeleteSet (exCfgC1.getDashboards "ns1") []).map
          (fun r => Call.deleteByUID r.uid) ∧
      (∀ r ∈ computeDeleteSet (exCfgC1.getDashboards "ns1") [],
        lookupRef s.cfg r.nspace r.name = none ∧ lookupPlugins s.cfg r.nspace r.name = none) :=
  c1_delete_set_processed_unconditionally exStateC1 exCfgC1 exGcFailDelete renderPipeline
    exEnvC1 "ns1" [] (fun _ => ⟨rfl, rfl⟩) rfl

/-- C2 counterexample: with the readiness flag false, Reconcile returns a
no-requeue result — requeue false and requeueAfter 0, which is not a
delayed-requeue — though it does make zero external calls. -/
theorem c2_counterexample :
    exStateNotReady.grafanaReady = false ∧
    (Reconcile exStateNotReady exCfgC1 exGcFailDelete renderPipeline exEnvC1
      { nspace := "ns1", name := "a" }).result.requeueAfter = 0 ∧
    (Reconcile exStateNotReady exCfgC1 exGcFailDelete renderPipeline exEnvC1
      { nspace := "ns1", name := "a" }).result.requeue = false ∧
    (Reconcile exStateNotReady exCfgC1 exGcFailDelete renderPipeline exEnvC1
      { nspace := "ns1", name := "a" }).st.calls = [] := by
  exact ⟨rfl, rfl, rfl, rfl⟩

/-- C2 (amended): when the readiness flag is false, Reconcile returns
immediately with a no-requeue result and nil error, performing zero
external-service calls and leaving the registry untouched (the periodic
resync re-triggers it later). -/
theorem c2_not_ready_noop (state : ControllerState) (cfg : ControllerConfig)
    (gc : GrafanaClient) (pipe : Pipeline) (env : ClusterEnv) (request : Request)
    (h : state.grafanaReady = false) :
    Reconcile state cfg gc pipe env request =
      { result := { requeue := false, requeueAfter := 0 }, error := none,
        st := { cfg := cfg, calls := [], events := [] }, panicked := false } := by
  unfold Reconcile
  rw [h]
  rfl

/-- C2 witness: the amended theorem at the concrete not-ready state. -/
theorem c2_witness :
    Reconcile exStateNotReady exCfgC1 exGcFailDelete renderPipeline exEnvC1
        { nspace := "ns1", name := "a" } =
      { result := { requeue := false, requeueAfter := 0 }, error := none,
        st := { cfg := exCfgC1, calls := [], events := [] }, panicked := false } :=
  c2_not_ready_noop exStateNotReady exCfgC1 exGcFailDelete renderPipeline exEnvC1
    { nspace := "ns1", name := "a" } rfl

/-- C3: under a client whose delete responses carry concrete status and
message values (modelled from the spec interface), a pass never panics: the
failure branch after DeleteDashboardByUID only logs the populated fields and
the loop continues. -/
theorem c3_delete_failure_no_crash (state : ControllerState) (cfg : ControllerConfig)
    (gc : GrafanaClient) (pipe : Pipeline) (env : ClusterEnv) (ns : String)
    (hwf : gc.deleteWellFormed) :
    ∀ s, reconcileDashboards state cfg gc pipe env ns ≠ PassResult.panicked s := by
  intro s
  cases hlist : env.listDashboards ns with
  | error e => simp [reconcileDashboards, hlist]
  | ok items =>
    rw [reconcile_ok state cfg gc pipe env ns items hwf hlist]
    simp

/-- C3 witness: the concrete failing-delete client is well-formed and its
pass does not panic. -/
theorem c3_witness :
    exGcFailDelete.deleteWellFormed ∧
    ∀ s, reconcileDashboards exStateC1 exCfgC1 exGcFailDelete renderPipeline exEnvC1 "ns1"
      ≠ PassResult.panicked s :=
  ⟨fun _ => ⟨rfl, rfl⟩,
    c3_delete_failure_no_crash exStateC1 exCfgC1 exGcFailDelete renderPipeline exEnvC1 "ns1"
      (fun _ => ⟨rfl, rfl⟩)⟩

/-- C4: partial-failure isolation — in a pass whose listing has
pairwise-distinct identities, a dashboard whose apply path fails gets an
error outcome and no Registry change at its key, while every dashboard whose
apply path succeeds is still reported successful and registered with its
fresh hash. -/
theorem c4_partial_failure_isolated (state : ControllerState) (cfg : ControllerConfig)
    (gc : GrafanaClient) (pipe : Pipeline) (env : ClusterEnv) (ns : String)
    (items : List Dashboard) (d : Dashboard) (hwf : gc.deleteWellFormed)
    (hlist : env.listDashboards ns = .ok items) (hkeys : keysNodup items) (hd : d ∈ items)
    (hfail : applyFails state env gc pipe (cfg.getDashboards ns) d) :
    ∃ s, reconcileDashboards state cfg gc pipe env ns = .ok s ∧
      (∃ e, Event.processingError d.nspace d.name e ∈ s.events) ∧
      lookupRef s.cfg d.nspace d.name = lookupRef cfg d.nspace d.name ∧
      (∀ d2 ∈ items, applySucceeds state env gc pipe (cfg.getDashboards ns) d2 →
        Event.success d2.nspace d2.name ∈ s.events ∧
        lookupRef s.cfg d2.nspace d2.name = some (mkRef d2)) := by
  obtain ⟨⟨e, hev⟩, hupd⟩ := stepEffects_fail state env gc pipe (cfg.getDashboards ns) d hfail
  refine ⟨_, reconcile_ok state cfg gc pipe env ns items hwf hlist, ?_, ?_, ?_⟩
  · exact ⟨e, passEvents_mem state env gc pipe (cfg.getDashboards ns) items d _ hd
      (by rw [hev]; exact List.mem_singleton_self _)⟩
  · exact passFinal_lookup_preserved state cfg gc pipe env ns items d hkeys hd hupd
  · intro d2 hd2 hsucc
    obtain ⟨hev2, hupd2⟩ :=
      stepEffects_succeed state env gc pipe (cfg.getDashboards ns) d2 hsucc
    exact ⟨passEvents_mem state env gc pipe (cfg.getDashboards ns) items d2 _ hd2
        (by rw [hev2]; exact List.mem_singleton_self _),
      passFinal_lookup_added state cfg gc pipe env ns items d2 hkeys hd2 hupd2⟩

/-- C5: when every in-scope dashboard's stored fingerprint matches its
content (so the rendering collaborator returns nil) and no entry has
disappeared, the pass makes zero external calls, leaves the registry entries
unchanged, and each matched dashboard's only effect is a plugin-metadata
refresh; hence a second reconciliation after a fully-converged one performs
zero external-service writes. -/
theorem c5_fingerprint_match_no_writes (state : ControllerState) (cfg : ControllerConfig)
    (gc : GrafanaClient) (env : ClusterEnv) (ns : String) (items : List Dashboard)
    (hlist : env.listDashboards ns = .ok items)
    (hhash : ∀ d ∈ items, isMatch state d = true →
      findHash (cfg.getDashboards ns) d = hashContent d.content)
    (hnodel : ∀ r ∈ cfg.getDashboards ns, inNamespace items r = true) :
    ∃ s, reconcileDashboards state cfg gc renderPipeline env ns = .ok s ∧
      s.calls = [] ∧ s.cfg.dashboards = cfg.dashboards ∧
      (∀ d ∈ items, isMatch state d = true →
        stepEffects state env gc renderPipeline (cfg.getDashboards ns) d
          = ([], [], fun c => c.setPluginsFor d)) := by
  have hdelnil : computeDeleteSet (cfg.getDashboards ns) items = [] := by
    unfold computeDeleteSet
    rw [List.filter_eq_nil_iff]
    intro r hr
    simp [hnodel r hr]
  have hstep : ∀ d ∈ items, isMatch state d = true →
      stepEffects state env gc renderPipeline (cfg.getDashboards ns) d
        = ([], [], fun c => c.setPluginsFor d) := by
    intro d hdm hm
    have hren : renderPipeline d (findHash (cfg.getDashboards ns) d) = .ok none := by
      rw [hhash d hdm hm]
      simp [renderPipeline]
    unfold stepEffects
    simp only [hm, Bool.not_true, Bool.false_eq_true, if_false, hren]
  have hshape : ∀ x ∈ items,
      (stepEffects state env gc renderPipeline (cfg.getDashboards ns) x).1 = [] ∧
      (∀ c2, ((stepEffects state env gc renderPipeline (cfg.getDashboards ns) x).2.2
        c2).dashboards = c2.dashboards) := by
    intro x hx
    cases hm : isMatch state x with
    | false =>
      have hid : stepEffects state env gc renderPipeline (cfg.getDashboards ns) x
          = ([], [], id) := by
        unfold stepEffects
        simp [hm]
      rw [hid]
      exact ⟨rfl, fun c2 => rfl⟩
    | true =>
      rw [hstep x hx hm]
      exact ⟨rfl, fun c2 => rfl⟩
  refine ⟨_, reconcile_ok_nodelete state cfg gc renderPipeline env ns items hlist hdelnil,
    ?_, ?_, hstep⟩
  · exact flatMap_nil_of_forall items _ (fun x hx => (hshape x hx).1)
  · show ((passUpd state env gc renderPipeline (cfg.getDashboards ns) items
        cfg).addConfigItem "GrafanaDashboardsSynced" true).dashboards = cfg.dashboards
    rw [dashboards_addConfigItem]
    exact passUpd_dashboards_const state env gc renderPipeline (cfg.getDashboards ns) items
      cfg (fun x hx => (hshape x hx).2)

/-- C6: the delete set of a pass is exactly the set of registry entries of
the namespace whose (namespace, name) identity has no counterpart in the
namespace listing. -/
theorem c6_delete_set_exact (cfg : ControllerConfig) (items : List Dashboard) (ns : String)
    (r : DashboardRef) :
    r ∈ computeDeleteSet (cfg.getDashboards ns) items ↔
      (r ∈ cfg.dashboards ∧ r.nspace = ns ∧
        ¬ ∃ d ∈ items, d.name = r.name ∧ d.nspace = r.nspace) := by
  constructor
  · intro h
    obtain ⟨hmem1, hpred⟩ := List.mem_filter.mp h
    obtain ⟨hmem, hq⟩ := List.mem_filter.mp hmem1
    rw [beq_iff_eq] at hq
    refine ⟨hmem, hq, ?_⟩
    rintro ⟨d, hd, hdn, hdns⟩
    have hin : inNamespace items r = true := by
      unfold inNamespace
      rw [List.any_eq_true]
      exact ⟨d, hd, by simp [hdn, hdns]⟩
    rw [hin] at hpred
    simp at hpred
  · rintro ⟨hmem, hns, hno⟩
    refine List.mem_filter.mpr ⟨List.mem_filter.mpr ⟨hmem, by simp [hns]⟩, ?_⟩
    cases hin : inNamespace items r with
    | false => simp
    | true =>
      exfalso
      unfold inNamespace at hin
      rw [List.any_eq_true] at hin
      obtain ⟨d, hd, hdp⟩ := hin
      rw [Bool.and_eq_true] at hdp
      obtain ⟨h1, h2⟩ := hdp
      rw [beq_iff_eq] at h1 h2
      exact hno ⟨d, hd, h1, h2⟩

/-- C7: a dashboard is eligible iff its labels satisfy at least one
configured selector whose evaluation succeeds; a nil or empty selector set
matches nothing (fail closed). -/
theorem c7_selector_scope (state : ControllerState) (d : Dashboard) :
    ((state.dashboardSelectors = none ∨ state.dashboardSelectors = some []) →
      isMatch state d = false) ∧
    (∀ sels, state.dashboardSelectors = some sels →
      (∀ sel ∈ sels, ∃ b, matchesSelector d sel = .ok b) →
      (isMatch state d = true ↔ ∃ sel ∈ sels, matchesSelector d sel = .ok true)) := by
  constructor
  · rintro (h | h) <;> simp [isMatch, h, matchesSelectors]
  · intro sels hsels hall
    obtain ⟨b, hb, hiff⟩ := matchesSelectors_ok_iff d sels hall
    simp only [isMatch, hsels, hb]
    exact hiff

/-- C8: namespace-level matching — an empty configured namespace selector
matches every namespace; a non-empty valid one returns exactly whether the
namespace labels satisfy it; an unresolvable namespace surfaces the lookup
error. -/
theorem c8_namespace_matching (env : ClusterEnv) (state : ControllerState) (d : Dashboard) :
    (∀ lbls sel, env.getNamespace d.nspace = .ok lbls →
      state.dashboardNamespaceSelector = some sel → sel.isEmptySel = true →
      checkNamespaceLabels env state d = .ok true) ∧
    (∀ lbls sel, env.getNamespace d.nspace = .ok lbls →
      state.dashboardNamespaceSelector = some sel → sel.isEmptySel = false →
      sel.validSel = true →
      checkNamespaceLabels env state d = .ok (KSelector.matchesL (KSelector.reqs sel) lbls)) ∧
    (∀ e, env.getNamespace d.nspace = .error e →
      checkNamespaceLabels env state d = .error e) := by
  refine ⟨?_, ?_, ?_⟩
  · intro lbls sel hok hsel hempty
    unfold checkNamespaceLabels
    simp [hok, hsel, labelSelectorAsSelector, hempty, KSelector.empty]
  · intro lbls sel hok hsel hempty hvalid
    unfold checkNamespaceLabels
    simp [hok, hsel, labelSelectorAsSelector, hempty, hvalid, KSelector.empty]
  · intro e he
    unfold checkNamespaceLabels
    simp [he]

/-- C9: a desired dashboard that passes the resource selector and renders a
payload but whose namespace fails the configured namespace selector is
skipped with no side effects: its iteration makes no calls, emits no events
and leaves the registry alone; its identity is not in the delete set, and its
registry entry after the pass is what it was before. -/
theorem c9_namespace_mismatch_skips (state : ControllerState) (cfg : ControllerConfig)
    (gc : GrafanaClient) (pipe : Pipeline) (env : ClusterEnv) (ns : String)
    (items : List Dashboard) (d : Dashboard) (sel : LabelSelector) (p : String)
    (hwf : gc.deleteWellFormed) (hlist : env.listDashboards ns = .ok items)
    (hkeys : keysNodup items) (hd : d ∈ items)
    (hsel : state.dashboardNamespaceSelector = some sel)
    (hmatch : isMatch state d = true)
    (hproc : pipe d (findHash (cfg.getDashboards ns) d) = .ok (some p))
    (hns : checkNamespaceLabels env state d = .ok false) :
    ∃ s, reconcileDashboards state cfg gc pipe env ns = .ok s ∧
      stepEffects state env gc pipe (cfg.getDashboards ns) d = ([], [], id) ∧
      (∀ r ∈ computeDeleteSet (cfg.getDashboards ns) items,
        ¬(r.nspace = d.nspace ∧ r.name = d.name)) ∧
      lookupRef s.cfg d.nspace d.name = lookupRef cfg d.nspace d.name := by
  have hstep : stepEffects state env gc pipe (cfg.getDashboards ns) d = ([], [], id) := by
    unfold stepEffects
    simp only [hmatch, Bool.not_true, Bool.false_eq_true, if_false, hproc, hsel, hns]
  refine ⟨_, reconcile_ok state cfg gc pipe env ns items hwf hlist, hstep,
    computeDeleteSet_key_ne (cfg.getDashboards ns) items d hd, ?_⟩
  exact passFinal_lookup_preserved state cfg gc pipe env ns items d hkeys hd (by rw [hstep])

/-- C10: when evaluating the resource selectors against a dashboard's labels
returns an error, isMatch is false and the pass iteration for that dashboard
is a no-op — no call, no event, no registry change — so the resource is
silently skipped with no error outcome. -/
theorem c10_selector_error_silent_skip (state : ControllerState) (sels : List LabelSelector)
    (d : Dashboard) (e : String)
    (h1 : state.dashboardSelectors = some sels)
    (h2 : matchesSelectors d sels = .error e) :
    isMatch state d = false ∧
    ∀ (env : ClusterEnv) (gc : GrafanaClient) (pipe : Pipeline) (known : List DashboardRef)
      (s : PassSt), processStep state env gc pipe known d s = s := by
  have hm : isMatch state d = false := by
    simp [isMatch, h1, h2]
  refine ⟨hm, ?_⟩
  intro env gc pipe known s
  unfold processStep
  simp [hm]

/-- C7 witness: a dashboard whose labels satisfy the single configured
selector is eligible, via the scope theorem. -/
theorem c7_witness : isMatch exState7 exDash7 = true := by
  have hall : ∀ sel ∈ [exSel7], ∃ b, matchesSelector exDash7 sel = .ok b := by
    intro sel hsel
    rw [List.mem_singleton] at hsel
    subst hsel
    exact ⟨true, rfl⟩
  exact ((c7_selector_scope exState7 exDash7).2 [exSel7] rfl hall).mpr
    ⟨exSel7, List.mem_singleton_self exSel7, rfl⟩

/-- C8 witness: the namespace-matching theorem at a namespace whose labels
satisfy the configured selector. -/
theorem c8_witness : checkNamespaceLabels exEnv8 exState8 exDash8 = Except.ok true := by
  have h := (c8_namespace_matching exEnv8 exState8 exDash8).2.1 [("env", "prod")] exSel8
    rfl rfl rfl rfl
  rw [h]
  rfl

/-- C10 witness: with a selector whose operator is invalid, the dashboard is
treated as out of scope and its pass iteration changes nothing. -/
theorem c10_witness :
    isMatch exStateBad exDash7 = false ∧
    processStep exStateBad exEnv10 exGc10 renderPipeline [] exDash7
        { cfg := exCfg10, calls := [], events := [] }
      = { cfg := exCfg10, calls := [], events := [] } := by
  have h := c10_selector_error_silent_skip exStateBad [exSelBad] exDash7
    "invalid label selector operator" rfl rfl
  exact ⟨h.1, h.2 exEnv10 exGc10 renderPipeline [] _⟩

/-- C4 witness: three dashboards, the middle one failing its create call; the
isolation theorem instantiated there. -/
theorem c4_witness :
    ∃ s, reconcileDashboards exState4 exCfg4 exGc4 renderPipeline exEnv4 "ns4" = .ok s ∧
      (∃ e, Event.processingError exDashB.nspace exDashB.name e ∈ s.events) ∧
      lookupRef s.cfg exDashB.nspace exDashB.name
        = lookupRef exCfg4 exDashB.nspace exDashB.name ∧
      (∀ d2 ∈ [exDashA, exDashB, exDashC],
        applySucceeds exState4 exEnv4 exGc4 renderPipeline (exCfg4.getDashboards "ns4") d2 →
        Event.success d2.nspace d2.name ∈ s.events ∧
        lookupRef s.cfg d2.nspace d2.name = some (mkRef d2)) :=
  c4_partial_failure_isolated exState4 exCfg4 exGc4 renderPipeline exEnv4 "ns4"
    [exDashA, exDashB, exDashC] exDashB (fun _ => ⟨rfl, rfl⟩) rfl
    (by unfold keysNodup; decide)
    (List.mem_cons_of_mem exDashA (List.mem_cons_self exDashB [exDashC]))
    ⟨rfl, Or.inr ⟨"cb", rfl, Or.inr ⟨Or.inl rfl,
      Or.inr ⟨{ id := some 7 }, rfl, "boom", rfl⟩⟩⟩⟩

/-- C5 witness: a converged registry (stored hash equals the content hash of
the one live dashboard) yields a pass with zero external calls. -/
theorem c5_witness :
    ∃ s, reconcileDashboards exState5 exCfg5 exGc10 renderPipeline exEnv5 "ns5" = .ok s ∧
      s.calls = [] ∧ s.cfg.dashboards = exCfg5.dashboards ∧
      (∀ d ∈ [exDash5], isMatch exState5 d = true →
        stepEffects exState5 exEnv5 exGc10 renderPipeline (exCfg5.getDashboards "ns5") d
          = ([], [], fun c => c.setPluginsFor d)) :=
  c5_fingerprint_match_no_writes exState5 exCfg5 exGc10 exEnv5 "ns5" [exDash5]
    rfl (by decide) (by decide)

/-- C9 witness: the namespace selector requires env=prod; a dashboard in the
staging namespace that matches the resource selector is skipped with no side
effects. -/
theorem c9_witness :
    ∃ s, reconcileDashboards exState9 exCfg9 exGc10 renderPipeline exEnv9 "staging"
        = .ok s ∧
      stepEffects exState9 exEnv9 exGc10 renderPipeline (exCfg9.getDashboards "staging")
        exDash9 = ([], [], id) ∧
      (∀ r ∈ computeDeleteSet (exCfg9.getDashboards "staging") [exDash9],
        ¬(r.nspace = exDash9.nspace ∧ r.name = exDash9.name)) ∧
      lookupRef s.cfg exDash9.nspace exDash9.name
        = lookupRef exCfg9 exDash9.nspace exDash9.name :=
  c9_namespace_mismatch_skips exState9 exCfg9 exGc10 renderPipeline exEnv9 "staging"
    [exDash9] exDash9 exSel8 "c9" (fun _ => ⟨rfl, rfl⟩) rfl (by unfold keysNodup; decide)
    (List.mem_singleton_self exDash9) rfl rfl rfl rfl

end GrafanaOp
